import Mathlib

/-!
AQUA 2.X (x86): exception handlers and boot orchestrator.

A verification development for two translation units of the kernel:

* `kernel/int/isr.c`: `isr_install`, the handlers `isr0` .. `isr31` and the table
  `exception_messages`;
* `kernel/c_kernel.c`: the boot orchestrator `c_main`.

Both are sequences of calls into other translation units.  A C function is embedded as a
state transformer over the trace of what it does, in program order: the calls it makes with
their evaluated arguments, its inline assembly statements and its assignments to global
variables.  Values returned by functions defined elsewhere are read from an environment
`Env`; those functions are taken to leave the globals assigned by `c_main` alone.
-/

set_option maxRecDepth 100000

namespace Aqua

/-! ## Symbols, values, events -/

/-- Function symbols named in `isr.c` and `c_kernel.c`, as callees or as function pointers. -/
inductive Fn where
  | vga_text_clear_screen
  | parse_mboot
  | printf
  | printf_minor
  | printf_warn
  | load_gdt
  | isr_install
  | init_heap
  | init_serial
  | irq_init
  | pit_install
  | pit_phase
  | keyboard_install
  | serial_install
  | parallel_install
  | mouse_install
  | bda_pit_ticks_since_boot
  | bda_get_lpt1_port
  | set_lpt_port
  | get_lpt_port
  | bda_get_lpt_count
  | bda_get_com_count
  | bda_keyboard_led
  | bda_get_keyboard_buffer
  | bda_get_text_mode_columns
  | get_video_type
  | are_ints_enabled
  | pc_speaker_mute
  | cpu_rdtsc
  | cpuid_detect_cpu
  | cpuid_detect_tsc
  | cpuid_detect_sse
  | cpu_detect_speed_noint
  | smbios_entry
  | smbios_get
  | bda_get_drive_count
  | ata_setup
  | ata_identify
  | cmos_init
  | add_event
  | cmos_read_rtc_event
  | acpi_init
  | pci_debug
  | pci_analyse
  | set_idt_gate
  | register_idt
  | isr0 | isr1 | isr2 | isr3 | isr4 | isr5 | isr6 | isr7
  | isr8 | isr9 | isr10 | isr11 | isr12 | isr13 | isr14 | isr15
  | isr16 | isr17 | isr18 | isr19 | isr20 | isr21 | isr22 | isr23
  | isr24 | isr25 | isr26 | isr27 | isr28 | isr29 | isr30 | isr31
  deriving DecidableEq, Repr

/-- The four channel constants of `drivers/ata/ata.h` that `c_main` passes to `ata_setup`.
The header is not among the sources, so a constant is represented by its name. -/
inductive AtaBus where
  | ATA_PRIMARY | ATA_SECONDARY | ATA_TERTIARY | ATA_QUATERNARY
  deriving DecidableEq, Repr

/-- The global variables that `c_main` assigns: the tick count, the eight drive records and
the eight public drive pointers. -/
inductive Global where
  | pit_uptime
  | _drive_primary_master | _drive_primary_slave
  | _drive_secondary_master | _drive_secondary_slave
  | _drive_tertiary_master | _drive_tertiary_slave
  | _drive_quaternary_master | _drive_quaternary_slave
  | drive_primary_master | drive_primary_slave
  | drive_secondary_master | drive_secondary_slave
  | drive_tertiary_master | drive_tertiary_slave
  | drive_quaternary_master | drive_quaternary_slave
  deriving DecidableEq, Repr

/-- The two fields of a drive record that `c_main` reads.  The record is declared in
`drivers/ata/ata.h`, which is not among the sources. -/
structure AtaDrive where
  name : String
  master_name : String
  deriving DecidableEq, Repr

/-- Values: integers, C strings, a channel constant, the address of a function, a drive
record and the address of a global variable. -/
inductive Val where
  | int (n : Nat)
  | str (s : String)
  | bus (b : AtaBus)
  | fn_ptr (f : Fn)
  | drive (d : AtaDrive)
  | addr_of (g : Global)
  deriving DecidableEq, Repr

/-- One observable step of a function body: a call with its evaluated arguments, an inline
assembly statement, or an assignment to a global variable. -/
inductive Event where
  | call (f : Fn) (args : List Val)
  | asm (instr : String)
  | store (g : Global) (v : Val)
  deriving DecidableEq, Repr

/-! ## Traces -/

/-- Computations over the events performed so far, the most recent one first. -/
abbrev K := StateM (List Event)

/-- Record an event as the most recent one. -/
def emit (e : Event) : K Unit :=
  modify fun t => e :: t

/-- A call statement whose result, if any, is not used. -/
def call (f : Fn) (args : List Val) : K Unit :=
  emit (Event.call f args)

/-- A call whose result is used: the event is recorded and the value `r` that the callee
returns is handed back. -/
def callr {α : Type} (f : Fn) (args : List Val) (r : α) : K α := do
  emit (Event.call f args)
  pure r

/-- An inline assembly statement. -/
def asm (instr : String) : K Unit :=
  emit (Event.asm instr)

/-- An assignment `g = v` to a global variable; the value assigned is handed back. -/
def store (g : Global) (v : Val) : K Val := do
  emit (Event.store g v)
  pure v

/-- The events a computation performs when nothing has been performed before, in program
order. -/
def traceOf {α : Type} (m : K α) : List Event :=
  (m.run []).2.reverse

/-- The result a computation hands back when nothing has been performed before. -/
def resultOf {α : Type} (m : K α) : α :=
  (m.run []).1

/-! ## `kernel/int/isr.c` -/

/-- The table `char* exception_messages[32]`. -/
def exception_messages : List String := [
  "Division By Zero",
  "Debug",
  "Non Maskable Interrupt",
  "Breakpoint",
  "Into Detected Overflow",
  "Out of Bounds",
  "Invalid Opcode",
  "No Coprocessor",

  "Double Fault",
  "Coprocessor Segment Overrun",
  "Bad TSS",
  "Segment Not Present",
  "Stack Fault",
  "General Protection Fault",
  "Page Fault",
  "Unknown Interrupt",

  "Coprocessor Fault",
  "Alignment Check",
  "Machine Check",
  "Reserved",
  "Reserved",
  "Reserved",
  "Reserved",
  "Reserved",

  "Reserved",
  "Reserved",
  "Reserved",
  "Reserved",
  "Reserved",
  "Reserved",
  "Reserved",
  "Reserved"
]

/-- The element `exception_messages[i]`; the table has 32 elements and every index written in
`isr.c` is a literal below 32. -/
def exception_messages_at (i : Nat) : String :=
  exception_messages.getD i ""

/-- The handler `void isr0(void)`. -/
def isr0 : K Unit := do
  call Fn.printf [Val.str "%s\n", Val.str (exception_messages_at 0)]
  asm "hlt"

/-- The handler `void isr1(void)`. -/
def isr1 : K Unit := do
  call Fn.printf [Val.str "%s\n", Val.str (exception_messages_at 1)]
  asm "hlt"

/-- The handler `void isr2(void)`. -/
def isr2 : K Unit := do
  call Fn.printf [Val.str "%s\n", Val.str (exception_messages_at 2)]
  asm "hlt"

/-- The handler `void isr3(void)`. -/
def isr3 : K Unit := do
  call Fn.printf [Val.str "%s\n", Val.str (exception_messages_at 3)]
  asm "hlt"

/-- The handler `void isr4(void)`. -/
def isr4 : K Unit := do
  call Fn.printf [Val.str "%s\n", Val.str (exception_messages_at 4)]
  asm "hlt"

/-- The handler `void isr5(void)`. -/
def isr5 : K Unit := do
  call Fn.printf [Val.str "%s\n", Val.str (exception_messages_at 5)]
  asm "hlt"

/-- The handler `void isr6(void)`. -/
def isr6 : K Unit := do
  call Fn.printf [Val.str "%s\n", Val.str (exception_messages_at 6)]
  asm "hlt"

/-- The handler `void isr7(void)`. -/
def isr7 : K Unit := do
  call Fn.printf [Val.str "%s\n", Val.str (exception_messages_at 7)]
  asm "hlt"

/-- The handler `void isr8(void)`. -/
def isr8 : K Unit := do
  call Fn.printf [Val.str "%s\n", Val.str (exception_messages_at 8)]
  asm "hlt"

/-- The handler `void isr9(void)`. -/
def isr9 : K Unit := do
  call Fn.printf [Val.str "%s\n", Val.str (exception_messages_at 9)]
  asm "hlt"

/-- The handler `void isr10(void)`. -/
def isr10 : K Unit := do
  call Fn.printf [Val.str "%s\n", Val.str (exception_messages_at 10)]
  asm "hlt"

/-- The handler `void isr11(void)`. -/
def isr11 : K Unit := do
  call Fn.printf [Val.str "%s\n", Val.str (exception_messages_at 11)]
  asm "hlt"

/-- The handler `void isr12(void)`. -/
def isr12 : K Unit := do
  call Fn.printf [Val.str "%s\n", Val.str (exception_messages_at 12)]
  asm "hlt"

/-- The handler `void isr13(void)`. -/
def isr13 : K Unit := do
  call Fn.printf [Val.str "%s\n", Val.str (exception_messages_at 13)]
  asm "hlt"

/-- The handler `void isr14(void)`. -/
def isr14 : K Unit := do
  call Fn.printf [Val.str "%s\n", Val.str (exception_messages_at 14)]
  asm "hlt"

/-- The handler `void isr15(void)`. -/
def isr15 : K Unit := do
  call Fn.printf [Val.str "%s\n", Val.str (exception_messages_at 15)]
  asm "hlt"

/-- The handler `void isr16(void)`. -/
def isr16 : K Unit := do
  call Fn.printf [Val.str "%s\n", Val.str (exception_messages_at 16)]
  asm "hlt"

/-- The handler `void isr17(void)`. -/
def isr17 : K Unit := do
  call Fn.printf [Val.str "%s\n", Val.str (exception_messages_at 17)]
  asm "hlt"

/-- The handler `void isr18(void)`. -/
def isr18 : K Unit := do
  call Fn.printf [Val.str "%s\n", Val.str (exception_messages_at 18)]
  asm "hlt"

/-- The handler `void isr19(void)`. -/
def isr19 : K Unit := do
  call Fn.printf [Val.str "%s\n", Val.str (exception_messages_at 19)]
  asm "hlt"

/-- The handler `void isr20(void)`. -/
def isr20 : K Unit := do
  call Fn.printf [Val.str "%s\n", Val.str (exception_messages_at 20)]
  asm "hlt"

/-- The handler `void isr21(void)`. -/
def isr21 : K Unit := do
  call Fn.printf [Val.str "%s\n", Val.str (exception_messages_at 21)]
  asm "hlt"

/-- The handler `void isr22(void)`. -/
def isr22 : K Unit := do
  call Fn.printf [Val.str "%s\n", Val.str (exception_messages_at 22)]
  asm "hlt"

/-- The handler `void isr23(void)`. -/
def isr23 : K Unit := do
  call Fn.printf [Val.str "%s\n", Val.str (exception_messages_at 23)]
  asm "hlt"

/-- The handler `void isr24(void)`. -/
def isr24 : K Unit := do
  call Fn.printf [Val.str "%s\n", Val.str (exception_messages_at 24)]
  asm "hlt"

/-- The handler `void isr25(void)`. -/
def isr25 : K Unit := do
  call Fn.printf [Val.str "%s\n", Val.str (exception_messages_at 25)]
  asm "hlt"

/-- The handler `void isr26(void)`. -/
def isr26 : K Unit := do
  call Fn.printf [Val.str "%s\n", Val.str (exception_messages_at 26)]
  asm "hlt"

/-- The handler `void isr27(void)`. -/
def isr27 : K Unit := do
  call Fn.printf [Val.str "%s\n", Val.str (exception_messages_at 27)]
  asm "hlt"

/-- The handler `void isr28(void)`. -/
def isr28 : K Unit := do
  call Fn.printf [Val.str "%s\n", Val.str (exception_messages_at 28)]
  asm "hlt"

/-- The handler `void isr29(void)`. -/
def isr29 : K Unit := do
  call Fn.printf [Val.str "%s\n", Val.str (exception_messages_at 29)]
  asm "hlt"

/-- The handler `void isr30(void)`. -/
def isr30 : K Unit := do
  call Fn.printf [Val.str "%s\n", Val.str (exception_messages_at 30)]
  asm "hlt"

/-- The handler `void isr31(void)`. -/
def isr31 : K Unit := do
  call Fn.printf [Val.str "%s\n", Val.str (exception_messages_at 31)]
  asm "hlt"

/-- The function `void isr_install(void)`. -/
def isr_install : K Unit := do
  call Fn.set_idt_gate [Val.int 0, Val.fn_ptr Fn.isr0]
  call Fn.set_idt_gate [Val.int 1, Val.fn_ptr Fn.isr1]
  call Fn.set_idt_gate [Val.int 2, Val.fn_ptr Fn.isr2]
  call Fn.set_idt_gate [Val.int 3, Val.fn_ptr Fn.isr3]
  call Fn.set_idt_gate [Val.int 4, Val.fn_ptr Fn.isr4]
  call Fn.set_idt_gate [Val.int 5, Val.fn_ptr Fn.isr5]
  call Fn.set_idt_gate [Val.int 6, Val.fn_ptr Fn.isr6]
  call Fn.set_idt_gate [Val.int 7, Val.fn_ptr Fn.isr7]
  call Fn.set_idt_gate [Val.int 8, Val.fn_ptr Fn.isr8]
  call Fn.set_idt_gate [Val.int 9, Val.fn_ptr Fn.isr9]
  call Fn.set_idt_gate [Val.int 10, Val.fn_ptr Fn.isr10]
  call Fn.set_idt_gate [Val.int 11, Val.fn_ptr Fn.isr11]
  call Fn.set_idt_gate [Val.int 12, Val.fn_ptr Fn.isr12]
  call Fn.set_idt_gate [Val.int 13, Val.fn_ptr Fn.isr13]
  call Fn.set_idt_gate [Val.int 14, Val.fn_ptr Fn.isr14]
  call Fn.set_idt_gate [Val.int 15, Val.fn_ptr Fn.isr15]
  call Fn.set_idt_gate [Val.int 16, Val.fn_ptr Fn.isr16]
  call Fn.set_idt_gate [Val.int 17, Val.fn_ptr Fn.isr17]
  call Fn.set_idt_gate [Val.int 18, Val.fn_ptr Fn.isr18]
  call Fn.set_idt_gate [Val.int 19, Val.fn_ptr Fn.isr19]
  call Fn.set_idt_gate [Val.int 20, Val.fn_ptr Fn.isr20]
  call Fn.set_idt_gate [Val.int 21, Val.fn_ptr Fn.isr21]
  call Fn.set_idt_gate [Val.int 22, Val.fn_ptr Fn.isr22]
  call Fn.set_idt_gate [Val.int 23, Val.fn_ptr Fn.isr23]
  call Fn.set_idt_gate [Val.int 24, Val.fn_ptr Fn.isr24]
  call Fn.set_idt_gate [Val.int 25, Val.fn_ptr Fn.isr25]
  call Fn.set_idt_gate [Val.int 26, Val.fn_ptr Fn.isr26]
  call Fn.set_idt_gate [Val.int 27, Val.fn_ptr Fn.isr27]
  call Fn.set_idt_gate [Val.int 28, Val.fn_ptr Fn.isr28]
  call Fn.set_idt_gate [Val.int 29, Val.fn_ptr Fn.isr29]
  call Fn.set_idt_gate [Val.int 30, Val.fn_ptr Fn.isr30]
  call Fn.set_idt_gate [Val.int 31, Val.fn_ptr Fn.isr31]

  call Fn.register_idt []

/-- The body that a function symbol denotes, for the functions defined in `isr.c`. -/
def Fn.body : Fn → Option (K Unit)
  | Fn.isr0 => some Aqua.isr0
  | Fn.isr1 => some Aqua.isr1
  | Fn.isr2 => some Aqua.isr2
  | Fn.isr3 => some Aqua.isr3
  | Fn.isr4 => some Aqua.isr4
  | Fn.isr5 => some Aqua.isr5
  | Fn.isr6 => some Aqua.isr6
  | Fn.isr7 => some Aqua.isr7
  | Fn.isr8 => some Aqua.isr8
  | Fn.isr9 => some Aqua.isr9
  | Fn.isr10 => some Aqua.isr10
  | Fn.isr11 => some Aqua.isr11
  | Fn.isr12 => some Aqua.isr12
  | Fn.isr13 => some Aqua.isr13
  | Fn.isr14 => some Aqua.isr14
  | Fn.isr15 => some Aqua.isr15
  | Fn.isr16 => some Aqua.isr16
  | Fn.isr17 => some Aqua.isr17
  | Fn.isr18 => some Aqua.isr18
  | Fn.isr19 => some Aqua.isr19
  | Fn.isr20 => some Aqua.isr20
  | Fn.isr21 => some Aqua.isr21
  | Fn.isr22 => some Aqua.isr22
  | Fn.isr23 => some Aqua.isr23
  | Fn.isr24 => some Aqua.isr24
  | Fn.isr25 => some Aqua.isr25
  | Fn.isr26 => some Aqua.isr26
  | Fn.isr27 => some Aqua.isr27
  | Fn.isr28 => some Aqua.isr28
  | Fn.isr29 => some Aqua.isr29
  | Fn.isr30 => some Aqua.isr30
  | Fn.isr31 => some Aqua.isr31
  | _ => none

/-! ## `kernel/c_kernel.c` -/

/-- What `c_main` obtains from code defined in other translation units: the value returned by
each function whose result `c_main` uses, the global `ints_enabled` as `c_main` reads it, the
record `ata_current_drive` points to when it is printed, the constant `VIDEO_TYPE_COLOUR`,
and the address of the local variable `smbios_entry_ptr`, which like the address of every C
object is not null.  The outcome of an `ata_identify` call is recorded per drive record;
`c_main` discards the value the call returns. -/
structure Env where
  bda_pit_ticks_since_boot : Nat
  bda_get_lpt1_port : Nat
  get_lpt_port : Nat
  bda_get_lpt_count : Nat
  bda_get_com_count : Nat
  bda_keyboard_led : Nat
  bda_get_keyboard_buffer : String
  bda_get_text_mode_columns : Nat
  get_video_type : Nat
  VIDEO_TYPE_COLOUR : Nat
  ints_enabled : Nat
  cpu_rdtsc : Nat
  cpuid_detect_cpu : Nat
  cpuid_detect_tsc : Nat
  cpuid_detect_sse : Nat
  cpu_detect_speed_noint : Nat
  smbios_entry : Nat
  addr_smbios_entry_ptr : Nat
  addr_smbios_entry_ptr_ne_null : addr_smbios_entry_ptr ≠ 0
  smbios_get_major_version : Nat → Nat
  smbios_get_minor_version : Nat → Nat
  bda_get_drive_count : Nat
  ata_setup : Nat → AtaBus → AtaDrive
  ata_identify_ok : Global → Bool
  ata_current_drive : AtaDrive
  acpi_init : Nat

/-- The C operator `!`. -/
def c_not (n : Nat) : Nat :=
  if n = 0 then 1 else 0

/-- The C conditional operator on strings: `c ? a : b`. -/
def c_cond (c : Nat) (a b : String) : String :=
  if c ≠ 0 then a else b

/-- The C operator `==`. -/
def c_eq (a b : Nat) : Nat :=
  if a = b then 1 else 0

/-- The statement `for(;;);`: no condition, an empty body and no `break`.  The result tells
whether control has left the loop after at most `fuel` iterations. -/
def for_ever : Nat → Bool
  | 0 => false
  | fuel + 1 => for_ever fuel

/-- The function `void c_main(uint32_t mb_magic, uint32_t mb_address)`.  The result is `true`
when control reaches the closing brace of the function, that is when `c_main` returns; `fuel`
bounds the number of iterations of the final loop that are followed. -/
def c_main (env : Env) (mb_magic mb_address : Nat) (fuel : Nat) : K Bool := do
  call Fn.vga_text_clear_screen []
  call Fn.parse_mboot [Val.int mb_magic, Val.int mb_address]

  call Fn.printf [Val.str "GDT: Loading the gdt ...\n"]
  call Fn.load_gdt []

  call Fn.printf [Val.str "Interrupts: Installing isr ...\n"]
  call Fn.isr_install []

  call Fn.printf [Val.str "Memory: Initializing heap ...\n"]
  call Fn.init_heap []

  call Fn.printf [Val.str "Serial: Initializing serial ...\n"]
  call Fn.init_serial []

  call Fn.printf [Val.str "Interrupts: Initializing irqs ...\n"]
  call Fn.irq_init []

  call Fn.printf_minor [Val.str "\tInterrupts: Installing PIT on IRQ0 ...\n"]
  call Fn.pit_install []
  call Fn.pit_phase [Val.int 1000]

  call Fn.printf_minor [Val.str "\tInterrupts: Installing keyboard on IRQ1 ...\n"]
  call Fn.keyboard_install []

  call Fn.printf_minor [Val.str "\tInterrupts: Installing serial COM on IRQ3 and IRQ4 ...\n"]
  call Fn.serial_install []

  call Fn.printf_minor [Val.str "\tInterrutps: Installing parallel LPT on IRQ5 and IRQ7 ...\n"]
  call Fn.parallel_install []

  call Fn.printf_minor [Val.str "\tInterrupts: Installing PS/2 mouse on IRQ12 ...\n"]
  call Fn.mouse_install []

  call Fn.printf [Val.str "BDA: Parsing BDA ...\n"]

  let ticks ← callr Fn.bda_pit_ticks_since_boot [] env.bda_pit_ticks_since_boot
  let pit_uptime ← store Global.pit_uptime (Val.int (ticks % 2 ^ 32))
  call Fn.printf_minor [Val.str "\tBDA: %d PIT ticks have occured since boot.\n", pit_uptime]

  let lpt1 ← callr Fn.bda_get_lpt1_port [] env.bda_get_lpt1_port
  call Fn.set_lpt_port [Val.int lpt1]
  let lpt ← callr Fn.get_lpt_port [] env.get_lpt_port
  call Fn.printf_minor [Val.str "\tBDA: Setting LPT port to LPT1 (0x%x) ...\n", Val.int lpt]

  let lpt_count ← callr Fn.bda_get_lpt_count [] env.bda_get_lpt_count
  call Fn.printf_minor [Val.str "\tBDA: Detected %d LPT ports.\n", Val.int lpt_count]
  let com_count ← callr Fn.bda_get_com_count [] env.bda_get_com_count
  call Fn.printf_minor [Val.str "\tBDA: Detected %d COM ports.\n", Val.int com_count]

  let led ← callr Fn.bda_keyboard_led [] env.bda_keyboard_led
  call Fn.printf_minor [Val.str "\tBDA: The keyboard LED is %s.\n", Val.str (c_cond led "on" "off")]
  let buffer ← callr Fn.bda_get_keyboard_buffer [] env.bda_get_keyboard_buffer
  call Fn.printf_minor [Val.str "\tBDA: The keyboard buffer is %s.\n", Val.str buffer]
  let columns ← callr Fn.bda_get_text_mode_columns [] env.bda_get_text_mode_columns
  call Fn.printf_minor [Val.str "\tBDA: There are %d coloumns in text mode.\n", Val.int columns]
  let video ← callr Fn.get_video_type [] env.get_video_type
  call Fn.printf_minor [Val.str "\tBDA: Screen is %s.\n",
    Val.str (c_cond (c_eq video env.VIDEO_TYPE_COLOUR) "coloured" "monochrome")]

  call Fn.printf [Val.str "Interrupts: Storing interrupt flags ...\n"]
  asm "sti"

  call Fn.printf [Val.str "Interrupts: Detecting if they are enabled ...\n"]
  let ints_enabled ← callr Fn.are_ints_enabled [] env.ints_enabled
  call Fn.printf_minor [Val.str "\tInterrupts are %s.\n",
    Val.str (c_cond (c_not ints_enabled) "enabled" "disabled")]

  call Fn.printf [Val.str "PC Speaker: Making sure it is set to mute ...\n"]
  call Fn.pc_speaker_mute []

  let tsc ← callr Fn.cpu_rdtsc [] env.cpu_rdtsc
  call Fn.printf [Val.str "CPU RDTSC: Timestamp is %d.\n", Val.int tsc]

  call Fn.printf [Val.str "CPUID: Detecting cpuid ...\n"]
  let cpu ← callr Fn.cpuid_detect_cpu [] (env.cpuid_detect_cpu % 2 ^ 8)
  let _ := cpu

  let has_tsc ← callr Fn.cpuid_detect_tsc [] env.cpuid_detect_tsc
  call Fn.printf_minor [Val.str "\tCPUID: CPU %s TSC.\n", Val.str (c_cond has_tsc "supports" "does not support")]
  let has_sse ← callr Fn.cpuid_detect_sse [] env.cpuid_detect_sse
  call Fn.printf_minor [Val.str "\tCPUID: CPU %s SSE.\n", Val.str (c_cond has_sse "supports" "does not support")]

  let speed ← callr Fn.cpu_detect_speed_noint [] env.cpu_detect_speed_noint
  call Fn.printf [Val.str "CPU: Benchmarking the CPU speed without interrupts (~ %d Hz).\n", Val.int speed]

  call Fn.printf [Val.str "SMBIOS: Detecting SMBIOS ...\n"]
  let smbios_entry_ptr ← callr Fn.smbios_entry [] env.smbios_entry

  if env.addr_smbios_entry_ptr ≠ 0 then
    call Fn.printf_minor [Val.str "\tSMBIOS exists at %d.\n", Val.int (env.addr_smbios_entry_ptr % 2 ^ 32)]
    let smbios ← callr Fn.smbios_get [Val.int smbios_entry_ptr]
      (env.smbios_get_major_version smbios_entry_ptr, env.smbios_get_minor_version smbios_entry_ptr)

    call Fn.printf_minor [Val.str "\tSMBIOS version %d.%d.\n", Val.int smbios.1, Val.int smbios.2]
  else
    call Fn.printf_warn [Val.str "SMBIOS does not exist.\n"]

  call Fn.printf [Val.str "ATA: Setting up drives ...\n"]
  let drive_count ← callr Fn.bda_get_drive_count [] env.bda_get_drive_count
  call Fn.printf_minor [Val.str "\tBDA: Detected %d disk drives.\n", Val.int drive_count]

  call Fn.printf_minor [Val.str "\tATA: Setting up primary master ...\n"]
  let r ← callr Fn.ata_setup [Val.int 1, Val.bus AtaBus.ATA_PRIMARY] (env.ata_setup 1 AtaBus.ATA_PRIMARY)
  let _ ← store Global._drive_primary_master (Val.drive r)
  call Fn.printf_minor [Val.str "\tATA: Setting up primary slave ...\n"]
  let r ← callr Fn.ata_setup [Val.int 0, Val.bus AtaBus.ATA_PRIMARY] (env.ata_setup 0 AtaBus.ATA_PRIMARY)
  let _ ← store Global._drive_primary_slave (Val.drive r)

  call Fn.printf_minor [Val.str "\tATA: Setting up secondary master ...\n"]
  let r ← callr Fn.ata_setup [Val.int 1, Val.bus AtaBus.ATA_SECONDARY] (env.ata_setup 1 AtaBus.ATA_SECONDARY)
  let _ ← store Global._drive_secondary_master (Val.drive r)
  call Fn.printf_minor [Val.str "\tATA: Setting up secondary slave ...\n"]
  let r ← callr Fn.ata_setup [Val.int 0, Val.bus AtaBus.ATA_SECONDARY] (env.ata_setup 0 AtaBus.ATA_SECONDARY)
  let _ ← store Global._drive_secondary_slave (Val.drive r)

  call Fn.printf_minor [Val.str "\tATA: Setting up tertiary master ...\n"]
  let r ← callr Fn.ata_setup [Val.int 1, Val.bus AtaBus.ATA_TERTIARY] (env.ata_setup 1 AtaBus.ATA_TERTIARY)
  let _ ← store Global._drive_tertiary_master (Val.drive r)
  call Fn.printf_minor [Val.str "\tATA: Setting up tertiary slave ...\n"]
  let r ← callr Fn.ata_setup [Val.int 0, Val.bus AtaBus.ATA_TERTIARY] (env.ata_setup 0 AtaBus.ATA_TERTIARY)
  let _ ← store Global._drive_tertiary_slave (Val.drive r)

  call Fn.printf_minor [Val.str "\tATA: Setting up quaternary master ...\n"]
  let r ← callr Fn.ata_setup [Val.int 1, Val.bus AtaBus.ATA_QUATERNARY] (env.ata_setup 1 AtaBus.ATA_QUATERNARY)
  let _ ← store Global._drive_quaternary_master (Val.drive r)
  call Fn.printf_minor [Val.str "\tATA: Setting up quaternary slave ...\n"]
  let r ← callr Fn.ata_setup [Val.int 0, Val.bus AtaBus.ATA_QUATERNARY] (env.ata_setup 0 AtaBus.ATA_QUATERNARY)
  let _ ← store Global._drive_quaternary_slave (Val.drive r)

  let drive_primary_master ← store Global.drive_primary_master (Val.addr_of Global._drive_primary_master)
  let drive_primary_slave ← store Global.drive_primary_slave (Val.addr_of Global._drive_primary_slave)
  let drive_secondary_master ← store Global.drive_secondary_master (Val.addr_of Global._drive_secondary_master)
  let drive_secondary_slave ← store Global.drive_secondary_slave (Val.addr_of Global._drive_secondary_slave)
  let drive_tertiary_master ← store Global.drive_tertiary_master (Val.addr_of Global._drive_tertiary_master)
  let drive_tertiary_slave ← store Global.drive_tertiary_slave (Val.addr_of Global._drive_tertiary_slave)
  let drive_quaternary_master ← store Global.drive_quaternary_master (Val.addr_of Global._drive_quaternary_master)
  let drive_quaternary_slave ← store Global.drive_quaternary_slave (Val.addr_of Global._drive_quaternary_slave)

  call Fn.printf [Val.str "ATA: Identifying drives ...\n"]

  call Fn.printf_minor [Val.str "\tATA: Identifying primary master ...\n"]
  call Fn.ata_identify [drive_primary_master]
  call Fn.printf_minor [Val.str "\tATA: Identifying primary slave ...\n"]
  call Fn.ata_identify [drive_primary_slave]

  call Fn.printf_minor [Val.str "\tATA: Identifying secondary master ...\n"]
  call Fn.ata_identify [drive_secondary_master]
  call Fn.printf_minor [Val.str "\tATA: Identifying secondary slave ...\n"]
  call Fn.ata_identify [drive_secondary_slave]

  call Fn.printf_minor [Val.str "\tATA: Identifying tertiary master ...\n"]
  call Fn.ata_identify [drive_tertiary_master]
  call Fn.printf_minor [Val.str "\tATA: Identifying tertiary slave ...\n"]
  call Fn.ata_identify [drive_tertiary_slave]

  call Fn.printf_minor [Val.str "\tATA: Identifying quaternary master ...\n"]
  call Fn.ata_identify [drive_quaternary_master]
  call Fn.printf_minor [Val.str "\tATA: Identifying quaternary slave ...\n"]
  call Fn.ata_identify [drive_quaternary_slave]

  call Fn.printf [Val.str "ATA: The selected drive is %s %s.\n",
    Val.str env.ata_current_drive.name, Val.str env.ata_current_drive.master_name]

  call Fn.printf [Val.str "CMOS: Initializing ...\n"]
  call Fn.cmos_init []

  call Fn.printf_minor [Val.str "\tCMOS: Adding RTC update event to occur every minute ... \n"]
  call Fn.add_event [Val.int 60000, Val.fn_ptr Fn.cmos_read_rtc_event]

  call Fn.printf [Val.str "ACPI: Initializing ... \n"]
  let acpi ← callr Fn.acpi_init [] env.acpi_init
  call Fn.printf_minor [Val.str "\tACPI: %d\n", Val.int acpi]

  call Fn.printf [Val.str "PCI: Scanning for devices ...\n"]
  call Fn.pci_debug []

  call Fn.printf [Val.str "PCI: Analysing devices ...\n"]
  call Fn.pci_analyse []

  return for_ever fuel

/-- The events `c_main` has performed once the final loop has been followed for `fuel`
iterations. -/
def c_main_trace (env : Env) (mb_magic mb_address fuel : Nat) : List Event :=
  traceOf (c_main env mb_magic mb_address fuel)

/-- Whether `c_main` has returned once the final loop has been followed for `fuel`
iterations. -/
def c_main_returned (env : Env) (mb_magic mb_address fuel : Nat) : Bool :=
  resultOf (c_main env mb_magic mb_address fuel)


/-! ## Reading traces -/

/-- An event with its arguments dropped: which function was called, which instruction was
executed, or which global was assigned. -/
def Event.step : Event → Event
  | Event.call f _ => Event.call f []
  | Event.asm i => Event.asm i
  | Event.store g _ => Event.store g (Val.int 0)

/-- Whether an event is a call of `f`. -/
def Event.isCall (f : Fn) : Event → Bool
  | Event.call g _ => decide (g = f)
  | _ => false

/-- Whether an event is a call of one of the functions `fs`. -/
def Event.isCallOf (fs : List Fn) : Event → Bool
  | Event.call g _ => fs.contains g
  | _ => false

/-- Whether an event is an inline assembly statement. -/
def Event.isAsm : Event → Bool
  | Event.asm _ => true
  | _ => false

/-- Whether an event is an assignment to a global variable. -/
def Event.isStore : Event → Bool
  | Event.store _ _ => true
  | _ => false

/-- Whether an event is a call of one of the print functions with the format string `fmt`. -/
def Event.printsWith (fmt : String) : Event → Bool
  | Event.call f (Val.str s :: _) =>
    [Fn.printf, Fn.printf_minor, Fn.printf_warn].contains f && decide (s = fmt)
  | _ => false

/-- The vector of a `set_idt_gate` call. -/
def Event.gateVector : Event → Option Nat
  | Event.call Fn.set_idt_gate (Val.int v :: _) => some v
  | _ => none

/-- The vectors for which a trace calls `set_idt_gate`, one entry per call, in program order. -/
def gate_vectors (t : List Event) : List Nat :=
  t.filterMap Event.gateVector

/-! ## The gate table and the processor -/

/-- Modelled from the spec: `set_idt_gate` and `register_idt` are defined in
`descr_tables/idt.c`, which is not among the sources.  By the specification of the descriptor
table builder, `set_idt_gate(vector, handler)` writes the gate for `vector`, which has no
effect until `register_idt()` commits the table to the processor.  `gates` holds the gates
written so far, the most recent first; `loaded` is the table as last committed. -/
structure Idt where
  gates : List (Nat × Fn)
  loaded : Option (List (Nat × Fn))
  deriving DecidableEq, Repr

/-- The handler the processor invokes for vector `v`: the gate for `v` in the committed table. -/
def Idt.handler (i : Idt) (v : Nat) : Option Fn :=
  match i.loaded with
  | none => none
  | some gates => gates.lookup v

/-- The statements of the handler the processor invokes for vector `v`, in program order. -/
def Idt.handler_events (i : Idt) (v : Nat) : Option (List Event) :=
  match i.handler v with
  | none => none
  | some h =>
    match h.body with
    | none => none
    | some b => some (traceOf b)

/-- What reaches the processor from outside the running code: a clock cycle, in which the next
statement is executed unless the processor is halted, or a non-maskable interrupt. -/
inductive Signal where
  | clock
  | nmi
  deriving DecidableEq, Repr

/-- The processor while handlers run, after the x86 architecture: `hlt` stops execution until
an interrupt is delivered, and a non-maskable interrupt is delivered through vector 2 and
not again before an `iret`.  `frames` are the handler activations, innermost first,
each with the statements it has still to execute; `halted` is the state `hlt` puts the
processor in; `nmi_in_service` holds from the delivery of a non-maskable interrupt until an
`iret`, and no handler in `isr.c` executes one; `output` lists the statements executed, in
order; `returns` counts the activations that ran past their last statement and so returned
to their caller. -/
structure Cpu where
  frames : List (List Event)
  halted : Bool
  nmi_in_service : Bool
  output : List Event
  returns : Nat
  deriving DecidableEq, Repr

/-- Delivery of vector `v`: the processor leaves the halted state if it was in it and starts
the handler found in the gate table. -/
def Cpu.enter (i : Idt) (v : Nat) (c : Cpu) : Cpu :=
  match i.handler_events v with
  | none => c
  | some body => { c with frames := body :: c.frames, halted := false }

/-- One clock cycle.  A halted processor executes nothing.  Otherwise the innermost handler
executes its next statement, `hlt` putting the processor in the halted state; a handler with
no statement left returns. -/
def Cpu.clock (c : Cpu) : Cpu :=
  if c.halted then c
  else
    match c.frames with
    | [] => c
    | [] :: rest => { c with frames := rest, returns := c.returns + 1 }
    | (e :: es) :: rest =>
      { c with
        frames := es :: rest,
        output := c.output ++ [e],
        halted := decide (e = Event.asm "hlt") }

/-- A non-maskable interrupt.  It is held while an earlier one is in service; otherwise it is
delivered through vector 2, also to a halted processor. -/
def Cpu.nmi (i : Idt) (c : Cpu) : Cpu :=
  if c.nmi_in_service then c
  else Cpu.enter i 2 { c with nmi_in_service := true }

/-- The effect of one signal. -/
def Cpu.step (i : Idt) (c : Cpu) : Signal → Cpu
  | Signal.clock => c.clock
  | Signal.nmi => c.nmi i

/-- The effect of a sequence of signals. -/
def Cpu.run (i : Idt) (c : Cpu) (sigs : List Signal) : Cpu :=
  sigs.foldl (Cpu.step i) c

/-- The string a print call hands to the format `fmt`, for a call with that format and one
string argument. -/
def Event.reported (fmt : String) : Event → Option String
  | Event.call f [Val.str s, Val.str a] =>
    if [Fn.printf, Fn.printf_minor, Fn.printf_warn].contains f && decide (s = fmt) then some a
    else none
  | _ => none

/-- The strings a trace prints with the format `fmt`, in program order. -/
def reports (fmt : String) (t : List Event) : List String :=
  t.filterMap (Event.reported fmt)

/-- A machine on which `smbios_entry()` finds no entry point and returns a null pointer, and
on which no drive answers. -/
def env_smbios_absent : Env where
  bda_pit_ticks_since_boot := 5000000000
  bda_get_lpt1_port := 888
  get_lpt_port := 888
  bda_get_lpt_count := 1
  bda_get_com_count := 2
  bda_keyboard_led := 0
  bda_get_keyboard_buffer := ""
  bda_get_text_mode_columns := 80
  get_video_type := 0
  VIDEO_TYPE_COLOUR := 0
  ints_enabled := 1
  cpu_rdtsc := 12345
  cpuid_detect_cpu := 1
  cpuid_detect_tsc := 1
  cpuid_detect_sse := 0
  cpu_detect_speed_noint := 1000000
  smbios_entry := 0
  addr_smbios_entry_ptr := 1048560
  addr_smbios_entry_ptr_ne_null := by decide
  smbios_get_major_version := fun _ => 0
  smbios_get_minor_version := fun _ => 0
  bda_get_drive_count := 0
  ata_setup := fun _ _ => { name := "", master_name := "" }
  ata_identify_ok := fun _ => false
  ata_current_drive := { name := "", master_name := "" }
  acpi_init := 0

/-- C3: in `isr_install` the commit `register_idt()` is the last action and happens once;
everything before it is a `set_idt_gate` call, and those calls name the vectors 0, 1, .., 31
in this order, so each vector below 32 is set exactly once and no other vector is set. -/
theorem isr_install_sets_each_gate_once_then_commits :
    (traceOf isr_install).getLast? = some (Event.call Fn.register_idt []) ∧
      (traceOf isr_install).countP (Event.isCall Fn.register_idt) = 1 ∧
      (traceOf isr_install).dropLast.all (Event.isCall Fn.set_idt_gate) = true ∧
      (traceOf isr_install).countP (Event.isCall Fn.set_idt_gate) = 32 ∧
      gate_vectors (traceOf isr_install) = List.range 32 ∧
      ∀ v, (gate_vectors (traceOf isr_install)).count v = if v < 32 then 1 else 0 := by
  have hg : gate_vectors (traceOf isr_install) = List.range 32 := by decide
  refine ⟨by decide, by decide, by decide, by decide, hg, ?_⟩
  intro v
  rw [hg]
  by_cases hv : v < 32
  · rw [if_pos hv]
    exact List.count_eq_one_of_mem (List.nodup_range 32) (List.mem_range.mpr hv)
  · rw [if_neg hv]
    exact List.count_eq_zero_of_not_mem (fun h => hv (List.mem_range.mp h))


/-- The final loop is never left. -/
theorem for_ever_eq_false (fuel : Nat) : for_ever fuel = false := by
  induction fuel with
  | zero => rfl
  | succ n ih => simpa [for_ever] using ih

/-- Negating a flag and choosing on the result chooses the first string exactly for zero. -/
theorem c_cond_c_not (n : Nat) (a b : String) :
    c_cond (c_not n) a b = if n = 0 then a else b := by
  unfold c_cond c_not
  by_cases h : n = 0 <;> simp [h]

/-- Whatever `smbios_entry()` returns, `c_main` calls `smbios_get` with it and never prints
the warning. -/
theorem c_main_always_takes_smbios_present_branch (env : Env) (mb_magic mb_address fuel : Nat) :
    (c_main_trace env mb_magic mb_address fuel).filter
        (Event.isCallOf [Fn.smbios_get, Fn.printf_warn]) =
      [Event.call Fn.smbios_get [Val.int env.smbios_entry]] := by
  have h := env.addr_smbios_entry_ptr_ne_null
  unfold c_main_trace c_main
  simp only [if_pos h]
  rfl

/-- C4, at the failing input: on a machine where `smbios_entry()` returns a null pointer,
`c_main` still reports that SMBIOS exists, calls `smbios_get` with the null pointer and
prints the version fields; the warning is not printed. -/
theorem c_main_null_smbios_entry_reported_present :
    env_smbios_absent.smbios_entry = 0 ∧
      (c_main_trace env_smbios_absent 732803074 65536 0).filter
          (fun e => Event.isCallOf [Fn.smbios_entry, Fn.smbios_get, Fn.printf_warn] e ||
            Event.printsWith "\tSMBIOS exists at %d.\n" e ||
            Event.printsWith "\tSMBIOS version %d.%d.\n" e) =
        [Event.call Fn.smbios_entry [],
          Event.call Fn.printf_minor [Val.str "\tSMBIOS exists at %d.\n", Val.int 1048560],
          Event.call Fn.smbios_get [Val.int 0],
          Event.call Fn.printf_minor [Val.str "\tSMBIOS version %d.%d.\n", Val.int 0, Val.int 0]] := by
  decide

/-- The drive set-up, the assignments of drive records and drive pointers, the identify calls
and `cmos_init`, for any environment. -/
theorem c_main_drives (env : Env) (mb_magic mb_address fuel : Nat) :
    (c_main_trace env mb_magic mb_address fuel).filter
        (fun e => Event.isCallOf [Fn.ata_setup, Fn.ata_identify, Fn.cmos_init] e) =
      [Event.call Fn.ata_setup [Val.int 1, Val.bus AtaBus.ATA_PRIMARY],
        Event.call Fn.ata_setup [Val.int 0, Val.bus AtaBus.ATA_PRIMARY],
        Event.call Fn.ata_setup [Val.int 1, Val.bus AtaBus.ATA_SECONDARY],
        Event.call Fn.ata_setup [Val.int 0, Val.bus AtaBus.ATA_SECONDARY],
        Event.call Fn.ata_setup [Val.int 1, Val.bus AtaBus.ATA_TERTIARY],
        Event.call Fn.ata_setup [Val.int 0, Val.bus AtaBus.ATA_TERTIARY],
        Event.call Fn.ata_setup [Val.int 1, Val.bus AtaBus.ATA_QUATERNARY],
        Event.call Fn.ata_setup [Val.int 0, Val.bus AtaBus.ATA_QUATERNARY],
        Event.call Fn.ata_identify [Val.addr_of Global._drive_primary_master],
        Event.call Fn.ata_identify [Val.addr_of Global._drive_primary_slave],
        Event.call Fn.ata_identify [Val.addr_of Global._drive_secondary_master],
        Event.call Fn.ata_identify [Val.addr_of Global._drive_secondary_slave],
        Event.call Fn.ata_identify [Val.addr_of Global._drive_tertiary_master],
        Event.call Fn.ata_identify [Val.addr_of Global._drive_tertiary_slave],
        Event.call Fn.ata_identify [Val.addr_of Global._drive_quaternary_master],
        Event.call Fn.ata_identify [Val.addr_of Global._drive_quaternary_slave],
        Event.call Fn.cmos_init []] ∧
      ((c_main_trace env mb_magic mb_address fuel).filter Event.isStore).drop 1 =
        [Event.store Global._drive_primary_master (Val.drive (env.ata_setup 1 AtaBus.ATA_PRIMARY)),
          Event.store Global._drive_primary_slave (Val.drive (env.ata_setup 0 AtaBus.ATA_PRIMARY)),
          Event.store Global._drive_secondary_master
            (Val.drive (env.ata_setup 1 AtaBus.ATA_SECONDARY)),
          Event.store Global._drive_secondary_slave
            (Val.drive (env.ata_setup 0 AtaBus.ATA_SECONDARY)),
          Event.store Global._drive_tertiary_master
            (Val.drive (env.ata_setup 1 AtaBus.ATA_TERTIARY)),
          Event.store Global._drive_tertiary_slave
            (Val.drive (env.ata_setup 0 AtaBus.ATA_TERTIARY)),
          Event.store Global._drive_quaternary_master
            (Val.drive (env.ata_setup 1 AtaBus.ATA_QUATERNARY)),
          Event.store Global._drive_quaternary_slave
            (Val.drive (env.ata_setup 0 AtaBus.ATA_QUATERNARY)),
          Event.store Global.drive_primary_master (Val.addr_of Global._drive_primary_master),
          Event.store Global.drive_primary_slave (Val.addr_of Global._drive_primary_slave),
          Event.store Global.drive_secondary_master (Val.addr_of Global._drive_secondary_master),
          Event.store Global.drive_secondary_slave (Val.addr_of Global._drive_secondary_slave),
          Event.store Global.drive_tertiary_master (Val.addr_of Global._drive_tertiary_master),
          Event.store Global.drive_tertiary_slave (Val.addr_of Global._drive_tertiary_slave),
          Event.store Global.drive_quaternary_master
            (Val.addr_of Global._drive_quaternary_master),
          Event.store Global.drive_quaternary_slave
            (Val.addr_of Global._drive_quaternary_slave)] := by
  have h := env.addr_smbios_entry_ptr_ne_null
  unfold c_main_trace c_main
  simp only [if_pos h]
  exact ⟨rfl, rfl⟩

/-- C5: for every assignment `outcome` of success or failure to the identify calls, on every
machine, `c_main` calls `ata_setup` for the eight positions (master 1 and slave 0 on each of
the four channels, all distinct), stores each result in its own drive record, points each
public drive pointer at its record, then calls `ata_identify` once with each of the eight
pointers, all distinct, and after the last of them calls `cmos_init`. -/
theorem c_main_identifies_all_eight_drives (env : Env) (outcome : Global → Bool)
    (mb_magic mb_address fuel : Nat) :
    (c_main_trace { env with ata_identify_ok := outcome } mb_magic mb_address fuel).filter
        (fun e => Event.isCallOf [Fn.ata_setup, Fn.ata_identify, Fn.cmos_init] e) =
      [Event.call Fn.ata_setup [Val.int 1, Val.bus AtaBus.ATA_PRIMARY],
        Event.call Fn.ata_setup [Val.int 0, Val.bus AtaBus.ATA_PRIMARY],
        Event.call Fn.ata_setup [Val.int 1, Val.bus AtaBus.ATA_SECONDARY],
        Event.call Fn.ata_setup [Val.int 0, Val.bus AtaBus.ATA_SECONDARY],
        Event.call Fn.ata_setup [Val.int 1, Val.bus AtaBus.ATA_TERTIARY],
        Event.call Fn.ata_setup [Val.int 0, Val.bus AtaBus.ATA_TERTIARY],
        Event.call Fn.ata_setup [Val.int 1, Val.bus AtaBus.ATA_QUATERNARY],
        Event.call Fn.ata_setup [Val.int 0, Val.bus AtaBus.ATA_QUATERNARY]] ++
      [Event.call Fn.ata_identify [Val.addr_of Global._drive_primary_master],
        Event.call Fn.ata_identify [Val.addr_of Global._drive_primary_slave],
        Event.call Fn.ata_identify [Val.addr_of Global._drive_secondary_master],
        Event.call Fn.ata_identify [Val.addr_of Global._drive_secondary_slave],
        Event.call Fn.ata_identify [Val.addr_of Global._drive_tertiary_master],
        Event.call Fn.ata_identify [Val.addr_of Global._drive_tertiary_slave],
        Event.call Fn.ata_identify [Val.addr_of Global._drive_quaternary_master],
        Event.call Fn.ata_identify [Val.addr_of Global._drive_quaternary_slave]] ++
      [Event.call Fn.cmos_init []] ∧
    List.Nodup
      [Event.call Fn.ata_setup [Val.int 1, Val.bus AtaBus.ATA_PRIMARY],
        Event.call Fn.ata_setup [Val.int 0, Val.bus AtaBus.ATA_PRIMARY],
        Event.call Fn.ata_setup [Val.int 1, Val.bus AtaBus.ATA_SECONDARY],
        Event.call Fn.ata_setup [Val.int 0, Val.bus AtaBus.ATA_SECONDARY],
        Event.call Fn.ata_setup [Val.int 1, Val.bus AtaBus.ATA_TERTIARY],
        Event.call Fn.ata_setup [Val.int 0, Val.bus AtaBus.ATA_TERTIARY],
        Event.call Fn.ata_setup [Val.int 1, Val.bus AtaBus.ATA_QUATERNARY],
        Event.call Fn.ata_setup [Val.int 0, Val.bus AtaBus.ATA_QUATERNARY]] ∧
    List.Nodup
      [Event.call Fn.ata_identify [Val.addr_of Global._drive_primary_master],
        Event.call Fn.ata_identify [Val.addr_of Global._drive_primary_slave],
        Event.call Fn.ata_identify [Val.addr_of Global._drive_secondary_master],
        Event.call Fn.ata_identify [Val.addr_of Global._drive_secondary_slave],
        Event.call Fn.ata_identify [Val.addr_of Global._drive_tertiary_master],
        Event.call Fn.ata_identify [Val.addr_of Global._drive_tertiary_slave],
        Event.call Fn.ata_identify [Val.addr_of Global._drive_quaternary_master],
        Event.call Fn.ata_identify [Val.addr_of Global._drive_quaternary_slave]] ∧
    ((c_main_trace { env with ata_identify_ok := outcome } mb_magic mb_address fuel).filter
        Event.isStore).drop 1 =
      [Event.store Global._drive_primary_master (Val.drive (env.ata_setup 1 AtaBus.ATA_PRIMARY)),
        Event.store Global._drive_primary_slave (Val.drive (env.ata_setup 0 AtaBus.ATA_PRIMARY)),
        Event.store Global._drive_secondary_master
          (Val.drive (env.ata_setup 1 AtaBus.ATA_SECONDARY)),
        Event.store Global._drive_secondary_slave
          (Val.drive (env.ata_setup 0 AtaBus.ATA_SECONDARY)),
        Event.store Global._drive_tertiary_master
          (Val.drive (env.ata_setup 1 AtaBus.ATA_TERTIARY)),
        Event.store Global._drive_tertiary_slave
          (Val.drive (env.ata_setup 0 AtaBus.ATA_TERTIARY)),
        Event.store Global._drive_quaternary_master
          (Val.drive (env.ata_setup 1 AtaBus.ATA_QUATERNARY)),
        Event.store Global._drive_quaternary_slave
          (Val.drive (env.ata_setup 0 AtaBus.ATA_QUATERNARY)),
        Event.store Global.drive_primary_master (Val.addr_of Global._drive_primary_master),
        Event.store Global.drive_primary_slave (Val.addr_of Global._drive_primary_slave),
        Event.store Global.drive_secondary_master (Val.addr_of Global._drive_secondary_master),
        Event.store Global.drive_secondary_slave (Val.addr_of Global._drive_secondary_slave),
        Event.store Global.drive_tertiary_master (Val.addr_of Global._drive_tertiary_master),
        Event.store Global.drive_tertiary_slave (Val.addr_of Global._drive_tertiary_slave),
        Event.store Global.drive_quaternary_master
          (Val.addr_of Global._drive_quaternary_master),
        Event.store Global.drive_quaternary_slave
          (Val.addr_of Global._drive_quaternary_slave)] := by
  have h := c_main_drives { env with ata_identify_ok := outcome } mb_magic mb_address fuel
  exact ⟨h.1, by decide, by decide, h.2⟩

/-- C6: in `c_main` the calls `vga_text_clear_screen`, `parse_mboot`, `load_gdt`,
`isr_install`, `init_heap`, `init_serial`, `irq_init`, `pit_install`, `keyboard_install`,
`serial_install`, `parallel_install`, `mouse_install` and the inline assembly statements are,
in program order, exactly these thirteen: each call once, in this order, then `sti`, the only
inline assembly statement, with no install after it. -/
theorem c_main_installs_handlers_before_sti (env : Env) (mb_magic mb_address fuel : Nat) :
    (c_main_trace env mb_magic mb_address fuel).filter
        (fun e => Event.isCallOf [Fn.vga_text_clear_screen, Fn.parse_mboot, Fn.load_gdt,
            Fn.isr_install, Fn.init_heap, Fn.init_serial, Fn.irq_init, Fn.pit_install,
            Fn.keyboard_install, Fn.serial_install, Fn.parallel_install, Fn.mouse_install] e ||
          Event.isAsm e) =
      [Event.call Fn.vga_text_clear_screen [],
        Event.call Fn.parse_mboot [Val.int mb_magic, Val.int mb_address],
        Event.call Fn.load_gdt [],
        Event.call Fn.isr_install [],
        Event.call Fn.init_heap [],
        Event.call Fn.init_serial [],
        Event.call Fn.irq_init [],
        Event.call Fn.pit_install [],
        Event.call Fn.keyboard_install [],
        Event.call Fn.serial_install [],
        Event.call Fn.parallel_install [],
        Event.call Fn.mouse_install [],
        Event.asm "sti"] := by
  have h := env.addr_smbios_entry_ptr_ne_null
  unfold c_main_trace c_main
  simp only [if_pos h]
  rfl

/-- C8: the boot arguments reach `parse_mboot` and nothing else.  The trace of `c_main` starts
with the screen clear and `parse_mboot(mb_magic, mb_address)`, and the 127 events after these
two are the same for every two pairs of boot arguments. -/
theorem c_main_steps_independent_of_boot_arguments (env : Env)
    (mb_magic mb_address mb_magic2 mb_address2 fuel fuel2 : Nat) :
    (c_main_trace env mb_magic mb_address fuel).take 2 =
        [Event.call Fn.vga_text_clear_screen [],
          Event.call Fn.parse_mboot [Val.int mb_magic, Val.int mb_address]] ∧
      (c_main_trace env mb_magic mb_address fuel).drop 2 =
        (c_main_trace env mb_magic2 mb_address2 fuel2).drop 2 ∧
      ((c_main_trace env mb_magic mb_address fuel).drop 2).length = 127 := by
  have h := env.addr_smbios_entry_ptr_ne_null
  have hrest : ∀ m a f : Nat, c_main_trace env m a f =
      Event.call Fn.vga_text_clear_screen [] ::
        Event.call Fn.parse_mboot [Val.int m, Val.int a] ::
          (c_main_trace env 0 0 0).drop 2 := by
    intro m a f
    unfold c_main_trace c_main
    simp only [if_pos h]
    rfl
  have hlen : ((c_main_trace env 0 0 0).drop 2).length = 127 := by
    unfold c_main_trace c_main
    simp only [if_pos h]
    rfl
  rw [hrest mb_magic mb_address fuel, hrest mb_magic2 mb_address2 fuel2]
  exact ⟨rfl, rfl, hlen⟩

/-- C9: `c_main` never returns.  However long the final loop is followed and whatever the
functions it calls return, `c_main` has not returned, everything up to `pci_analyse()` has
been performed, `pci_analyse()` being the last of 129 events, and nothing is performed in the
loop. -/
theorem c_main_never_returns (env : Env) (mb_magic mb_address fuel : Nat) :
    c_main_returned env mb_magic mb_address fuel = false ∧
      (c_main_trace env mb_magic mb_address fuel).getLast? =
        some (Event.call Fn.pci_analyse []) ∧
      (c_main_trace env mb_magic mb_address fuel).length = 129 ∧
      c_main_trace env mb_magic mb_address fuel = c_main_trace env mb_magic mb_address 0 := by
  have h := env.addr_smbios_entry_ptr_ne_null
  refine ⟨?_, ?_, ?_, ?_⟩
  · unfold c_main_returned c_main
    simp only [if_pos h]
    exact for_ever_eq_false fuel
  · unfold c_main_trace c_main
    simp only [if_pos h]
    rfl
  · unfold c_main_trace c_main
    simp only [if_pos h]
    rfl
  · unfold c_main_trace c_main
    simp only [for_ever_eq_false]

/-- C10: after the call `are_ints_enabled()`, `c_main` prints one line with the format
`Interrupts are %s.`, and the word it puts in is `enabled` exactly when `ints_enabled` is
zero and `disabled` exactly when `ints_enabled` is not zero. -/
theorem c_main_reports_interrupt_flag_inverted (env : Env) (mb_magic mb_address fuel : Nat) :
    (c_main_trace env mb_magic mb_address fuel).filter
        (fun e => Event.isCall Fn.are_ints_enabled e ||
          Event.printsWith "\tInterrupts are %s.\n" e) =
      [Event.call Fn.are_ints_enabled [],
        Event.call Fn.printf_minor [Val.str "\tInterrupts are %s.\n",
          Val.str (if env.ints_enabled = 0 then "enabled" else "disabled")]] ∧
      (reports "\tInterrupts are %s.\n" (c_main_trace env mb_magic mb_address fuel) =
          ["enabled"] ↔ env.ints_enabled = 0) ∧
      (reports "\tInterrupts are %s.\n" (c_main_trace env mb_magic mb_address fuel) =
          ["disabled"] ↔ env.ints_enabled ≠ 0) := by
  have h := env.addr_smbios_entry_ptr_ne_null
  have h1 : (c_main_trace env mb_magic mb_address fuel).filter
        (fun e => Event.isCall Fn.are_ints_enabled e ||
          Event.printsWith "\tInterrupts are %s.\n" e) =
      [Event.call Fn.are_ints_enabled [],
        Event.call Fn.printf_minor [Val.str "\tInterrupts are %s.\n",
          Val.str (c_cond (c_not env.ints_enabled) "enabled" "disabled")]] := by
    unfold c_main_trace c_main
    simp only [if_pos h]
    rfl
  have h2 : reports "\tInterrupts are %s.\n" (c_main_trace env mb_magic mb_address fuel) =
      [c_cond (c_not env.ints_enabled) "enabled" "disabled"] := by
    unfold c_main_trace c_main
    simp only [if_pos h]
    rfl
  rw [c_cond_c_not] at h1 h2
  refine ⟨h1, ?_, ?_⟩
  · rw [h2]
    by_cases h0 : env.ints_enabled = 0
    · simp [h0]
    · simp [h0]
  · rw [h2]
    by_cases h0 : env.ints_enabled = 0
    · simp [h0]
    · simp [h0]

end Aqua
